import Mathlib

/-!
Shallow embedding of the MadPodRacing controller.

The main revision (mad-pod-racing-gold.ts) is embedded in namespace MadPod;
the threshold-shield revision of nextAction (the unnamed source file that
declares COLLISION_ANGLE_THRESHOLD = 75 and COLLISION_SPEED_THRESHOLD = 80)
is embedded in namespace MadPod.P3.

Modelling conventions:
* JavaScript numbers are modelled as real numbers; the JS intrinsics used by
  the program (Math.round, Math.sqrt, Math.atan2, the remainder operator)
  are given explicit definitions with their JS semantics on real inputs.
* In-place mutation of pod objects is modelled by returning the updated
  records; functions that mutate several pods return all of them.
* console.error logging is dropped, except that the gold revision's
  nextAction evaluates ellasticCollision inside a console.error argument,
  which mutates the velocities of the two pods involved: that state change
  is kept in the model.
-/

namespace MadPod

noncomputable section

/-- JS Math.round x: round half toward positive infinity, i.e. the floor of
x + 1/2. -/
def jsRound (x : ℝ) : ℤ := ⌊x + 1 / 2⌋

/-- Truncation toward zero, the integer part used by the JS remainder
operator. -/
def truncToward0 (x : ℝ) : ℤ := if 0 ≤ x then ⌊x⌋ else ⌈x⌉

/-- JS remainder a % b: the remainder after truncated division, so its sign
follows the dividend a. -/
def jsMod (a b : ℝ) : ℝ := a - b * (truncToward0 (a / b) : ℝ)

/-- JS Math.atan2 y x, with Math.atan2 0 0 = 0 as in JS (for nonnegative
zero arguments). -/
def atan2 (y x : ℝ) : ℝ :=
  if 0 < x then Real.arctan (y / x)
  else if x < 0 then
    if 0 ≤ y then Real.arctan (y / x) + Real.pi else Real.arctan (y / x) - Real.pi
  else if 0 < y then Real.pi / 2
  else if y < 0 then -(Real.pi / 2)
  else 0

-- Constants of mad-pod-racing-gold.ts.

def FRICTION_FACTOR : ℝ := 0.85
def MAX_BOOST_ANGLE_DEGREES : ℝ := 15
def TARGET_BRAKING_DISTANCE_UNITS : ℝ := 2000
def MINIMUM_DRIFT_SPEED_UNITS : ℝ := 100
def DRIFT_INTENSITY_FACTOR : ℝ := 4
def TARGET_DISTANCE_FACTOR : ℝ := 2
def CHECKPOINT_RADIUS_UNITS : ℝ := 600
def COLLISION_DETECTION_SPEED_THRESHOLD : ℝ := 300
def COLLISION_RADIUS_UNITS : ℝ := 400
def COLLISION_DECRIMENT_THRESHOLD : ℝ := 10
def THRUST_DECREASE_PER_TICK : ℝ := 10
def CORRECTION_SPEED_THRESHOLD : ℝ := 100

/-- distanceBetween of the source: Euclidean distance between two points. -/
def distanceBetween (x1 y1 x2 y2 : ℝ) : ℝ :=
  Real.sqrt ((x2 - x1) ^ 2 + (y2 - y1) ^ 2)

/-- normalizeAngle of the source: a %= 360, then one range correction step. -/
def normalizeAngle (angle : ℝ) : ℝ :=
  let a := jsMod angle 360
  if 180 < a then a - 360 else if a < -180 then a + 360 else a

/-- angleToCheckpoint of the source: world-frame angle to the checkpoint in
degrees, minus the pod's heading, normalized. -/
def angleToCheckpoint (podX podY checkpointX checkpointY podDirection : ℝ) : ℝ :=
  normalizeAngle (atan2 (checkpointY - podY) (checkpointX - podX) * 180 / Real.pi
    - podDirection)

/-- Thrust commands: a number, or one of the literal strings BOOST / SHIELD.
The source types this as number | string. -/
inductive Thrust where
  | num : ℤ → Thrust
  | boost : Thrust
  | shield : Thrust
deriving DecidableEq

/-- IPod of the source. The optional thrust field is an Option; the other
optional fields are always set by initializePod, so they are plain fields. -/
structure Pod where
  id : ℕ
  posX : ℝ
  posY : ℝ
  speedX : ℝ
  prevSpeedX : ℝ
  prevSpeedY : ℝ
  speedY : ℝ
  speed : ℝ
  angle : ℝ
  nextCheckpointId : ℕ
  nextCheckpointX : ℝ
  nextCheckpointY : ℝ
  distanceNextCheckpoint : ℝ
  angleNextCheckpoint : ℝ
  currentLap : ℕ
  boostUsed : Bool
  shieldUsed : Bool
  isOpponent : Bool
  thrust : Option Thrust
  isCorrecting : Bool
  targetX : ℝ
  targetY : ℝ

/-- initializePod of the source: the all-zero initial pod state. -/
def initializePod : Pod where
  id := 0
  posX := 0
  posY := 0
  speedX := 0
  speedY := 0
  prevSpeedX := 0
  prevSpeedY := 0
  speed := 0
  angle := 0
  nextCheckpointId := 0
  nextCheckpointX := 0
  nextCheckpointY := 0
  distanceNextCheckpoint := 0
  angleNextCheckpoint := 0
  currentLap := 0
  boostUsed := false
  shieldUsed := false
  isOpponent := false
  thrust := none
  isCorrecting := false
  targetX := 0
  targetY := 0

/-- updatePod of the source: spread the old pod, overwriting the telemetry
fields and the derived speed / distance / bearing fields. In the source
isOpponent is an optional parameter defaulting to false; here it is passed
explicitly at every call site. -/
def updatePod (pod : Pod) (id : ℕ) (posX posY speedX speedY angle : ℝ)
    (nextCheckpointId : ℕ) (nextCheckpointX nextCheckpointY : ℝ)
    (isOpponent : Bool) : Pod :=
  { pod with
    id := id
    posX := posX
    posY := posY
    speedX := speedX
    speedY := speedY
    speed := (jsRound (Real.sqrt (speedX * speedX + speedY * speedY)) : ℝ)
    angle := angle
    nextCheckpointId := nextCheckpointId
    nextCheckpointX := nextCheckpointX
    nextCheckpointY := nextCheckpointY
    distanceNextCheckpoint := distanceBetween posX posY nextCheckpointX nextCheckpointY
    angleNextCheckpoint :=
      angleToCheckpoint posX posY nextCheckpointX nextCheckpointY angle
    isOpponent := isOpponent }

/-- IGame of the source. The id-keyed checkpoint object (keys 0..N-1 in
insertion order) is modelled as a list indexed by position. -/
structure Game where
  laps : ℕ
  checkpointCount : ℕ
  checkpoints : List (ℝ × ℝ)
  optimalBoostCheckpointId : ℕ

/-- Lookup game.checkpoints[i]; in every use the index is within range. -/
def getCheckpoint (checkpoints : List (ℝ × ℝ)) (i : ℕ) : ℝ × ℝ :=
  checkpoints.getD i (0, 0)

/-- findOptimalBoostCheckpoint of the source: the first index of the longest
edge between consecutive checkpoints, plus one, modulo the count. The fold
from 0 computes Math.max of the distances, which are all nonnegative. -/
def findOptimalBoostCheckpoint (checkpoints : List (ℝ × ℝ))
    (checkpointCount : ℕ) : ℕ :=
  let distances := (List.range checkpointCount).map fun i =>
    distanceBetween (getCheckpoint checkpoints i).1 (getCheckpoint checkpoints i).2
      (getCheckpoint checkpoints ((i + 1) % checkpointCount)).1
      (getCheckpoint checkpoints ((i + 1) % checkpointCount)).2
  let maxDistanceIndex := distances.indexOf (distances.foldr max 0)
  (maxDistanceIndex + 1) % checkpointCount

/-- getCollisionAngle of the source: angle of the line from pod1 to pod2. -/
def getCollisionAngle (pod1 pod2 : Pod) : ℝ :=
  atan2 (pod2.posY - pod1.posY) (pod2.posX - pod1.posX)

/-- rotateVector of the source. -/
def rotateVector (vector : ℝ × ℝ) (angle : ℝ) : ℝ × ℝ :=
  (vector.1 * Real.cos angle - vector.2 * Real.sin angle,
   vector.1 * Real.sin angle + vector.2 * Real.cos angle)

/-- updateVelocityAfterCollisionWithAngle of the source: rotate both
velocities into the line-of-impact frame, swap the x (along-impact)
components, rotate back, and write the new velocities into the two pods.
The mutation of pod1 and pod2 is modelled by returning the updated pair. -/
def updateVelocityAfterCollisionWithAngle (pod1 pod2 : Pod) : Pod × Pod :=
  let angle := getCollisionAngle pod1 pod2
  let u1 := rotateVector (pod1.speedX, pod1.speedY) (-angle)
  let u2 := rotateVector (pod2.speedX, pod2.speedY) (-angle)
  let v1x := u2.1
  let v2x := u1.1
  let v1 := rotateVector (v1x, u1.2) angle
  let v2 := rotateVector (v2x, u2.2) angle
  ({ pod1 with speedX := v1.1, speedY := v1.2 },
   { pod2 with speedX := v2.1, speedY := v2.2 })

/-- ellasticCollision of the source: its only state effect is the call to
updateVelocityAfterCollisionWithAngle; the future positions it returns are
only logged, so the model returns the two updated pods. -/
def ellasticCollision (myPod otherPod : Pod) : Pod × Pod :=
  updateVelocityAfterCollisionWithAngle myPod otherPod

/-- detectCollision of the source: project both pods one tick ahead under
the friction factor and flag an overlap of the two collision discs. -/
def detectCollision (myPod otherPod : Pod) : Prop :=
  distanceBetween (myPod.posX + myPod.speedX * FRICTION_FACTOR)
      (myPod.posY + myPod.speedY * FRICTION_FACTOR)
      (otherPod.posX + otherPod.speedX * FRICTION_FACTOR)
      (otherPod.posY + otherPod.speedY * FRICTION_FACTOR)
    ≤ COLLISION_RADIUS_UNITS * 2

instance (myPod otherPod : Pod) : Decidable (detectCollision myPod otherPod) := by
  unfold detectCollision; infer_instance

/-- calculateThrust of the source. It writes pod.boostUsed in the boost
branch, so the model returns the command together with the updated pod. -/
def calculateThrust (pod : Pod) (game : Game) : Thrust × Pod :=
  if |pod.angleNextCheckpoint| < MAX_BOOST_ANGLE_DEGREES ∧
      pod.nextCheckpointId = game.optimalBoostCheckpointId ∧
      pod.boostUsed = false then
    (Thrust.boost, { pod with boostUsed := true })
  else
    let thrust : ℝ := 100
    let thrust :=
      if |pod.angleNextCheckpoint| < 90 then
        thrust * (1 - |pod.angleNextCheckpoint| / 90)
      else thrust
    let thrust :=
      if pod.distanceNextCheckpoint <
          TARGET_DISTANCE_FACTOR * CHECKPOINT_RADIUS_UNITS then
        thrust * (pod.distanceNextCheckpoint /
          (TARGET_DISTANCE_FACTOR * CHECKPOINT_RADIUS_UNITS))
      else thrust
    (Thrust.num (jsRound thrust), pod)

/-- Emitted per-pod action: the rounded target coordinates and the thrust
command of one output line. -/
structure Action where
  thrust : Thrust
  targetX : ℤ
  targetY : ℤ

/-- Final command conversion of nextAction: a numeric thrust is passed to
Math.round, which is the identity here because calculateThrust already
rounded it; pod.thrust is always assigned before this point, so the none
case is unreachable. -/
def finalThrust : Option Thrust → Thrust
  | some t => t
  | none => Thrust.num 0

/-- The isCorrecting maintenance block at the top of nextAction: stop
correcting once the speed is back above the threshold. -/
def stopCorrecting (pod : Pod) : Pod :=
  if pod.isCorrecting = true ∧ CORRECTION_SPEED_THRESHOLD ≤ pod.speed then
    { pod with isCorrecting := false }
  else pod

/-- One opponent-collision block of the gold nextAction. The block appears
twice in the source, textually identical except for the opponent pod; it is
factored into this function. On a flagged collision the ellasticCollision
call evaluated inside console.error rewrites both pods' velocities, then
the command is overridden to SHIELD and the shield flag is set. -/
def collideOpponent (pod opp : Pod) : Pod × Pod :=
  if detectCollision pod opp then
    let e := ellasticCollision pod opp
    ({ e.1 with thrust := some Thrust.shield, shieldUsed := true }, e.2)
  else (pod, opp)

/-- The target correction block of nextAction: aim at the next checkpoint,
offset against the current velocity when fast enough to drift. -/
def driftTarget (pod : Pod) : Pod :=
  if MINIMUM_DRIFT_SPEED_UNITS < pod.speed then
    { pod with
      targetX := pod.nextCheckpointX - DRIFT_INTENSITY_FACTOR * pod.speedX
      targetY := pod.nextCheckpointY - DRIFT_INTENSITY_FACTOR * pod.speedY }
  else
    { pod with
      targetX := pod.nextCheckpointX
      targetY := pod.nextCheckpointY }

/-- The checkpoint-passing block of nextAction: when the pod is closer to
the checkpoint than the aim point is, aim at the following checkpoint
instead. -/
def advanceTarget (pod : Pod) (game : Game) : Pod :=
  let distanceTargetToCheckpoint :=
    distanceBetween pod.targetX pod.targetY pod.nextCheckpointX pod.nextCheckpointY
  if pod.distanceNextCheckpoint < distanceTargetToCheckpoint then
    let nextCheckpointId := (pod.nextCheckpointId + 1) % game.checkpointCount
    { pod with
      targetX := (getCheckpoint game.checkpoints nextCheckpointId).1
      targetY := (getCheckpoint game.checkpoints nextCheckpointId).2 }
  else pod

/-- The return statement of nextAction: round the coordinates; the numeric
thrust is already an integer, so its Math.round is the identity. -/
def emitAction (pod : Pod) : Action :=
  { thrust := finalThrust pod.thrust
    targetX := jsRound pod.targetX
    targetY := jsRound pod.targetY }

/-- nextAction of the source (gold revision), as the composition of its
blocks in source order. Mutations are modelled by state passing: the result
carries the updated pod, the two opponent pods (whose velocities the
ellasticCollision logging calls can rewrite), and the emitted action. The
ally collision branch only logs, so it has no state effect. -/
def nextAction (pod myOtherPod opponentPod1 opponentPod2 : Pod) (game : Game) :
    Pod × Pod × Pod × Action :=
  let ct := calculateThrust pod game
  let pod1 : Pod := { ct.2 with thrust := some ct.1 }
  let pod2 := stopCorrecting pod1
  let step1 := collideOpponent pod2 opponentPod1
  let step2 := collideOpponent step1.1 opponentPod2
  let pod5 := driftTarget step2.1
  let pod6 := advanceTarget pod5 game
  (pod6, step1.2, step2.2, emitAction pod6)

/-- Per-tick input for one controlled pod, as read by the main loop: the
telemetry line for this pod, plus the states of the three other pods that
nextAction receives this tick. -/
structure TickInput where
  id : ℕ
  posX : ℝ
  posY : ℝ
  speedX : ℝ
  speedY : ℝ
  angle : ℝ
  nextCheckpointId : ℕ
  myOther : Pod
  opp1 : Pod
  opp2 : Pod

/-- One main-loop iteration for one controlled pod: save the previous
velocity, fold in the telemetry with updatePod, then run nextAction.
Returns the carried pod state and the emitted thrust command. -/
def tick (game : Game) (pod : Pod) (t : TickInput) : Pod × Thrust :=
  let pod0 : Pod := { pod with prevSpeedX := pod.speedX, prevSpeedY := pod.speedY }
  let pod1 := updatePod pod0 t.id t.posX t.posY t.speedX t.speedY t.angle
    t.nextCheckpointId (getCheckpoint game.checkpoints t.nextCheckpointId).1
    (getCheckpoint game.checkpoints t.nextCheckpointId).2 false
  let r := nextAction pod1 t.myOther t.opp1 t.opp2 game
  (r.1, r.2.2.2.thrust)

/-- Run the main loop for one controlled pod over a list of tick inputs,
starting from the given pod state; collects the emitted thrust commands. -/
def runFrom (game : Game) (pod : Pod) : List TickInput → Pod × List Thrust
  | [] => (pod, [])
  | t :: ts =>
    let r := tick game pod t
    let rest := runFrom game r.1 ts
    (rest.1, r.2 :: rest.2)

/-- A whole match for one controlled pod: the main loop starting from the
all-zero initial pod state. -/
def runMatch (game : Game) (ts : List TickInput) : Pod × List Thrust :=
  runFrom game initializePod ts

/-- Number of BOOST commands in an emitted command list. -/
def countBoost (l : List Thrust) : ℕ := l.count Thrust.boost

namespace P3

/-- COLLISION_SPEED_THRESHOLD of the threshold revision. -/
def COLLISION_SPEED_THRESHOLD : ℝ := 80

/-- COLLISION_ANGLE_THRESHOLD of the threshold revision. -/
def COLLISION_ANGLE_THRESHOLD : ℝ := 75

/-- COLLISION_RADIUS_UNITS of the threshold revision. -/
def COLLISION_RADIUS_UNITS : ℝ := 447

/-- detectCollision of the threshold revision: two friction steps of
lookahead, then the same disc-overlap test with radius 447. -/
def detectCollision (myPod otherPod : Pod) : Prop :=
  distanceBetween
      (myPod.posX + myPod.speedX * FRICTION_FACTOR + myPod.speedX * FRICTION_FACTOR)
      (myPod.posY + myPod.speedY * FRICTION_FACTOR + myPod.speedY * FRICTION_FACTOR)
      (otherPod.posX + otherPod.speedX * FRICTION_FACTOR
        + otherPod.speedX * FRICTION_FACTOR)
      (otherPod.posY + otherPod.speedY * FRICTION_FACTOR
        + otherPod.speedY * FRICTION_FACTOR)
    ≤ COLLISION_RADIUS_UNITS * 2

instance (myPod otherPod : Pod) : Decidable (P3.detectCollision myPod otherPod) := by
  unfold P3.detectCollision; infer_instance

/-- One opponent-collision block of the threshold revision's nextAction
(the block appears twice, textually identical except for the opponent).
The shield override fires only when the collision is flagged and both the
heading difference and the speed difference exceed their thresholds; the
inner threshold test is written as a conjunction with the outer collision
test, which is equivalent to the source's nested ifs because the outer
block's only other content is logging. -/
def shieldOpponent (pod opp : Pod) : Pod :=
  if detectCollision pod opp ∧
      COLLISION_ANGLE_THRESHOLD < |pod.angle - opp.angle| ∧
      COLLISION_SPEED_THRESHOLD < |pod.speed - opp.speed| then
    { pod with thrust := some Thrust.shield, shieldUsed := true }
  else pod

/-- nextAction of the threshold revision, as the composition of its blocks
in source order: calculateThrust, the isCorrecting block, the drift block,
the checkpoint-passing block and the emitted action are textually identical
to the gold revision's, collisions do not rewrite velocities, and the
shield policy is the thresholded one. -/
def nextAction (pod myOtherPod opponentPod1 opponentPod2 : Pod) (game : Game) :
    Pod × Action :=
  let ct := calculateThrust pod game
  let pod1 : Pod := { ct.2 with thrust := some ct.1 }
  let pod2 := stopCorrecting pod1
  let pod3 := shieldOpponent pod2 opponentPod1
  let pod4 := shieldOpponent pod3 opponentPod2
  let pod5 := driftTarget pod4
  let pod6 := advanceTarget pod5 game
  (pod6, emitAction pod6)

end P3

-- Helper lemmas -------------------------------------------------------------

theorem jsMod_360_bounds (a : ℝ) : -360 < jsMod a 360 ∧ jsMod a 360 < 360 := by
  unfold jsMod truncToward0
  split_ifs with h
  · have h1 : ((⌊a / 360⌋ : ℤ) : ℝ) ≤ a / 360 := Int.floor_le _
    have h2 : a / 360 < ((⌊a / 360⌋ : ℤ) : ℝ) + 1 := Int.lt_floor_add_one _
    constructor <;> nlinarith
  · have h1 : a / 360 ≤ ((⌈a / 360⌉ : ℤ) : ℝ) := Int.le_ceil _
    have h2 : ((⌈a / 360⌉ : ℤ) : ℝ) < a / 360 + 1 := Int.ceil_lt_add_one _
    constructor <;> nlinarith

theorem normalizeAngle_bounds (a : ℝ) :
    -180 ≤ normalizeAngle a ∧ normalizeAngle a ≤ 180 := by
  obtain ⟨hl, hr⟩ := jsMod_360_bounds a
  simp only [normalizeAngle]
  split_ifs with h1 h2 <;> constructor <;> linarith

theorem jsRound_range {x : ℝ} (h0 : 0 ≤ x) (h100 : x ≤ 100) :
    0 ≤ jsRound x ∧ jsRound x ≤ 100 := by
  unfold jsRound
  constructor
  · exact Int.le_floor.mpr (by push_cast; linarith)
  · have h : ⌊x + 1 / 2⌋ < 101 := Int.floor_lt.mpr (by push_cast; linarith)
    omega

theorem rotateVector_rotateVector_neg (v : ℝ × ℝ) (θ : ℝ) :
    rotateVector (rotateVector v θ) (-θ) = v := by
  have h := Real.sin_sq_add_cos_sq θ
  unfold rotateVector
  rw [Prod.ext_iff]
  dsimp only
  rw [Real.cos_neg, Real.sin_neg]
  constructor
  · linear_combination v.1 * h
  · linear_combination v.2 * h

theorem calculateThrust_snd_cases (pod : Pod) (g : Game) :
    (calculateThrust pod g).2 = pod ∨
      (calculateThrust pod g).2 = { pod with boostUsed := true } := by
  unfold calculateThrust
  split_ifs <;> simp

theorem calculateThrust_fst_cases (pod : Pod) (g : Game) :
    (calculateThrust pod g).1 = Thrust.boost ∨
      ∃ n, (calculateThrust pod g).1 = Thrust.num n := by
  unfold calculateThrust
  split_ifs <;> simp

theorem calculateThrust_boost_iff (pod : Pod) (g : Game) :
    (calculateThrust pod g).1 = Thrust.boost ↔
      |pod.angleNextCheckpoint| < MAX_BOOST_ANGLE_DEGREES ∧
        pod.nextCheckpointId = g.optimalBoostCheckpointId ∧
        pod.boostUsed = false := by
  unfold calculateThrust
  split_ifs with h <;> simp [h]

theorem calculateThrust_snd_boostUsed (pod : Pod) (g : Game) :
    ((calculateThrust pod g).2).boostUsed =
      (pod.boostUsed || decide ((calculateThrust pod g).1 = Thrust.boost)) := by
  unfold calculateThrust
  split_ifs with h <;> simp

@[simp] theorem calculateThrust_snd_posX (pod : Pod) (g : Game) :
    ((calculateThrust pod g).2).posX = pod.posX := by
  unfold calculateThrust; split_ifs <;> rfl

@[simp] theorem calculateThrust_snd_posY (pod : Pod) (g : Game) :
    ((calculateThrust pod g).2).posY = pod.posY := by
  unfold calculateThrust; split_ifs <;> rfl

@[simp] theorem calculateThrust_snd_speedX (pod : Pod) (g : Game) :
    ((calculateThrust pod g).2).speedX = pod.speedX := by
  unfold calculateThrust; split_ifs <;> rfl

@[simp] theorem calculateThrust_snd_speedY (pod : Pod) (g : Game) :
    ((calculateThrust pod g).2).speedY = pod.speedY := by
  unfold calculateThrust; split_ifs <;> rfl

@[simp] theorem calculateThrust_snd_speed (pod : Pod) (g : Game) :
    ((calculateThrust pod g).2).speed = pod.speed := by
  unfold calculateThrust; split_ifs <;> rfl

@[simp] theorem calculateThrust_snd_angle (pod : Pod) (g : Game) :
    ((calculateThrust pod g).2).angle = pod.angle := by
  unfold calculateThrust; split_ifs <;> rfl

@[simp] theorem calculateThrust_snd_nextCheckpointId (pod : Pod) (g : Game) :
    ((calculateThrust pod g).2).nextCheckpointId = pod.nextCheckpointId := by
  unfold calculateThrust; split_ifs <;> rfl

@[simp] theorem calculateThrust_snd_nextCheckpointX (pod : Pod) (g : Game) :
    ((calculateThrust pod g).2).nextCheckpointX = pod.nextCheckpointX := by
  unfold calculateThrust; split_ifs <;> rfl

@[simp] theorem calculateThrust_snd_nextCheckpointY (pod : Pod) (g : Game) :
    ((calculateThrust pod g).2).nextCheckpointY = pod.nextCheckpointY := by
  unfold calculateThrust; split_ifs <;> rfl

@[simp] theorem calculateThrust_snd_distanceNextCheckpoint (pod : Pod) (g : Game) :
    ((calculateThrust pod g).2).distanceNextCheckpoint =
      pod.distanceNextCheckpoint := by
  unfold calculateThrust; split_ifs <;> rfl

@[simp] theorem calculateThrust_snd_angleNextCheckpoint (pod : Pod) (g : Game) :
    ((calculateThrust pod g).2).angleNextCheckpoint = pod.angleNextCheckpoint := by
  unfold calculateThrust; split_ifs <;> rfl

@[simp] theorem calculateThrust_snd_currentLap (pod : Pod) (g : Game) :
    ((calculateThrust pod g).2).currentLap = pod.currentLap := by
  unfold calculateThrust; split_ifs <;> rfl

@[simp] theorem calculateThrust_snd_isCorrecting (pod : Pod) (g : Game) :
    ((calculateThrust pod g).2).isCorrecting = pod.isCorrecting := by
  unfold calculateThrust; split_ifs <;> rfl

@[simp] theorem calculateThrust_snd_shieldUsed (pod : Pod) (g : Game) :
    ((calculateThrust pod g).2).shieldUsed = pod.shieldUsed := by
  unfold calculateThrust; split_ifs <;> rfl

@[simp] theorem stopCorrecting_posX (pod : Pod) :
    (stopCorrecting pod).posX = pod.posX := by
  unfold stopCorrecting; split_ifs <;> rfl

@[simp] theorem stopCorrecting_posY (pod : Pod) :
    (stopCorrecting pod).posY = pod.posY := by
  unfold stopCorrecting; split_ifs <;> rfl

@[simp] theorem stopCorrecting_speedX (pod : Pod) :
    (stopCorrecting pod).speedX = pod.speedX := by
  unfold stopCorrecting; split_ifs <;> rfl

@[simp] theorem stopCorrecting_speedY (pod : Pod) :
    (stopCorrecting pod).speedY = pod.speedY := by
  unfold stopCorrecting; split_ifs <;> rfl

@[simp] theorem stopCorrecting_speed (pod : Pod) :
    (stopCorrecting pod).speed = pod.speed := by
  unfold stopCorrecting; split_ifs <;> rfl

@[simp] theorem stopCorrecting_angle (pod : Pod) :
    (stopCorrecting pod).angle = pod.angle := by
  unfold stopCorrecting; split_ifs <;> rfl

@[simp] theorem stopCorrecting_nextCheckpointId (pod : Pod) :
    (stopCorrecting pod).nextCheckpointId = pod.nextCheckpointId := by
  unfold stopCorrecting; split_ifs <;> rfl

@[simp] theorem stopCorrecting_nextCheckpointX (pod : Pod) :
    (stopCorrecting pod).nextCheckpointX = pod.nextCheckpointX := by
  unfold stopCorrecting; split_ifs <;> rfl

@[simp] theorem stopCorrecting_nextCheckpointY (pod : Pod) :
    (stopCorrecting pod).nextCheckpointY = pod.nextCheckpointY := by
  unfold stopCorrecting; split_ifs <;> rfl

@[simp] theorem stopCorrecting_distanceNextCheckpoint (pod : Pod) :
    (stopCorrecting pod).distanceNextCheckpoint = pod.distanceNextCheckpoint := by
  unfold stopCorrecting; split_ifs <;> rfl

@[simp] theorem stopCorrecting_angleNextCheckpoint (pod : Pod) :
    (stopCorrecting pod).angleNextCheckpoint = pod.angleNextCheckpoint := by
  unfold stopCorrecting; split_ifs <;> rfl

@[simp] theorem stopCorrecting_currentLap (pod : Pod) :
    (stopCorrecting pod).currentLap = pod.currentLap := by
  unfold stopCorrecting; split_ifs <;> rfl

@[simp] theorem stopCorrecting_boostUsed (pod : Pod) :
    (stopCorrecting pod).boostUsed = pod.boostUsed := by
  unfold stopCorrecting; split_ifs <;> rfl

@[simp] theorem stopCorrecting_shieldUsed (pod : Pod) :
    (stopCorrecting pod).shieldUsed = pod.shieldUsed := by
  unfold stopCorrecting; split_ifs <;> rfl

@[simp] theorem stopCorrecting_thrust (pod : Pod) :
    (stopCorrecting pod).thrust = pod.thrust := by
  unfold stopCorrecting; split_ifs <;> rfl

@[simp] theorem collideOpponent_fst_posX (pod opp : Pod) :
    ((collideOpponent pod opp).1).posX = pod.posX := by
  unfold collideOpponent ellasticCollision updateVelocityAfterCollisionWithAngle
  split_ifs <;> rfl

@[simp] theorem collideOpponent_fst_posY (pod opp : Pod) :
    ((collideOpponent pod opp).1).posY = pod.posY := by
  unfold collideOpponent ellasticCollision updateVelocityAfterCollisionWithAngle
  split_ifs <;> rfl

@[simp] theorem collideOpponent_fst_speed (pod opp : Pod) :
    ((collideOpponent pod opp).1).speed = pod.speed := by
  unfold collideOpponent ellasticCollision updateVelocityAfterCollisionWithAngle
  split_ifs <;> rfl

@[simp] theorem collideOpponent_fst_angle (pod opp : Pod) :
    ((collideOpponent pod opp).1).angle = pod.angle := by
  unfold collideOpponent ellasticCollision updateVelocityAfterCollisionWithAngle
  split_ifs <;> rfl

@[simp] theorem collideOpponent_fst_nextCheckpointId (pod opp : Pod) :
    ((collideOpponent pod opp).1).nextCheckpointId = pod.nextCheckpointId := by
  unfold collideOpponent ellasticCollision updateVelocityAfterCollisionWithAngle
  split_ifs <;> rfl

@[simp] theorem collideOpponent_fst_nextCheckpointX (pod opp : Pod) :
    ((collideOpponent pod opp).1).nextCheckpointX = pod.nextCheckpointX := by
  unfold collideOpponent ellasticCollision updateVelocityAfterCollisionWithAngle
  split_ifs <;> rfl

@[simp] theorem collideOpponent_fst_nextCheckpointY (pod opp : Pod) :
    ((collideOpponent pod opp).1).nextCheckpointY = pod.nextCheckpointY := by
  unfold collideOpponent ellasticCollision updateVelocityAfterCollisionWithAngle
  split_ifs <;> rfl

@[simp] theorem collideOpponent_fst_distanceNextCheckpoint (pod opp : Pod) :
    ((collideOpponent pod opp).1).distanceNextCheckpoint =
      pod.distanceNextCheckpoint := by
  unfold collideOpponent ellasticCollision updateVelocityAfterCollisionWithAngle
  split_ifs <;> rfl

@[simp] theorem collideOpponent_fst_angleNextCheckpoint (pod opp : Pod) :
    ((collideOpponent pod opp).1).angleNextCheckpoint =
      pod.angleNextCheckpoint := by
  unfold collideOpponent ellasticCollision updateVelocityAfterCollisionWithAngle
  split_ifs <;> rfl

@[simp] theorem collideOpponent_fst_currentLap (pod opp : Pod) :
    ((collideOpponent pod opp).1).currentLap = pod.currentLap := by
  unfold collideOpponent ellasticCollision updateVelocityAfterCollisionWithAngle
  split_ifs <;> rfl

@[simp] theorem collideOpponent_fst_boostUsed (pod opp : Pod) :
    ((collideOpponent pod opp).1).boostUsed = pod.boostUsed := by
  unfold collideOpponent ellasticCollision updateVelocityAfterCollisionWithAngle
  split_ifs <;> rfl

@[simp] theorem collideOpponent_fst_thrust (pod opp : Pod) :
    ((collideOpponent pod opp).1).thrust =
      if detectCollision pod opp then some Thrust.shield else pod.thrust := by
  unfold collideOpponent ellasticCollision updateVelocityAfterCollisionWithAngle
  split_ifs <;> rfl

theorem collideOpponent_of_not {pod opp : Pod} (h : ¬ detectCollision pod opp) :
    collideOpponent pod opp = (pod, opp) := by
  unfold collideOpponent; rw [if_neg h]

@[simp] theorem driftTarget_posX (pod : Pod) :
    (driftTarget pod).posX = pod.posX := by
  unfold driftTarget; split_ifs <;> rfl

@[simp] theorem driftTarget_posY (pod : Pod) :
    (driftTarget pod).posY = pod.posY := by
  unfold driftTarget; split_ifs <;> rfl

@[simp] theorem driftTarget_speedX (pod : Pod) :
    (driftTarget pod).speedX = pod.speedX := by
  unfold driftTarget; split_ifs <;> rfl

@[simp] theorem driftTarget_speedY (pod : Pod) :
    (driftTarget pod).speedY = pod.speedY := by
  unfold driftTarget; split_ifs <;> rfl

@[simp] theorem driftTarget_speed (pod : Pod) :
    (driftTarget pod).speed = pod.speed := by
  unfold driftTarget; split_ifs <;> rfl

@[simp] theorem driftTarget_nextCheckpointId (pod : Pod) :
    (driftTarget pod).nextCheckpointId = pod.nextCheckpointId := by
  unfold driftTarget; split_ifs <;> rfl

@[simp] theorem driftTarget_nextCheckpointX (pod : Pod) :
    (driftTarget pod).nextCheckpointX = pod.nextCheckpointX := by
  unfold driftTarget; split_ifs <;> rfl

@[simp] theorem driftTarget_nextCheckpointY (pod : Pod) :
    (driftTarget pod).nextCheckpointY = pod.nextCheckpointY := by
  unfold driftTarget; split_ifs <;> rfl

@[simp] theorem driftTarget_distanceNextCheckpoint (pod : Pod) :
    (driftTarget pod).distanceNextCheckpoint = pod.distanceNextCheckpoint := by
  unfold driftTarget; split_ifs <;> rfl

@[simp] theorem driftTarget_currentLap (pod : Pod) :
    (driftTarget pod).currentLap = pod.currentLap := by
  unfold driftTarget; split_ifs <;> rfl

@[simp] theorem driftTarget_boostUsed (pod : Pod) :
    (driftTarget pod).boostUsed = pod.boostUsed := by
  unfold driftTarget; split_ifs <;> rfl

@[simp] theorem driftTarget_thrust (pod : Pod) :
    (driftTarget pod).thrust = pod.thrust := by
  unfold driftTarget; split_ifs <;> rfl

@[simp] theorem driftTarget_targetX (pod : Pod) :
    (driftTarget pod).targetX =
      if MINIMUM_DRIFT_SPEED_UNITS < pod.speed then
        pod.nextCheckpointX - DRIFT_INTENSITY_FACTOR * pod.speedX
      else pod.nextCheckpointX := by
  unfold driftTarget; split_ifs <;> rfl

@[simp] theorem driftTarget_targetY (pod : Pod) :
    (driftTarget pod).targetY =
      if MINIMUM_DRIFT_SPEED_UNITS < pod.speed then
        pod.nextCheckpointY - DRIFT_INTENSITY_FACTOR * pod.speedY
      else pod.nextCheckpointY := by
  unfold driftTarget; split_ifs <;> rfl

@[simp] theorem advanceTarget_currentLap (pod : Pod) (g : Game) :
    (advanceTarget pod g).currentLap = pod.currentLap := by
  simp only [advanceTarget]; split_ifs <;> rfl

@[simp] theorem advanceTarget_boostUsed (pod : Pod) (g : Game) :
    (advanceTarget pod g).boostUsed = pod.boostUsed := by
  simp only [advanceTarget]; split_ifs <;> rfl

@[simp] theorem advanceTarget_thrust (pod : Pod) (g : Game) :
    (advanceTarget pod g).thrust = pod.thrust := by
  simp only [advanceTarget]; split_ifs <;> rfl

@[simp] theorem advanceTarget_targetX (pod : Pod) (g : Game) :
    (advanceTarget pod g).targetX =
      if pod.distanceNextCheckpoint <
          distanceBetween pod.targetX pod.targetY
            pod.nextCheckpointX pod.nextCheckpointY then
        (getCheckpoint g.checkpoints
          ((pod.nextCheckpointId + 1) % g.checkpointCount)).1
      else pod.targetX := by
  simp only [advanceTarget]; split_ifs <;> rfl

@[simp] theorem advanceTarget_targetY (pod : Pod) (g : Game) :
    (advanceTarget pod g).targetY =
      if pod.distanceNextCheckpoint <
          distanceBetween pod.targetX pod.targetY
            pod.nextCheckpointX pod.nextCheckpointY then
        (getCheckpoint g.checkpoints
          ((pod.nextCheckpointId + 1) % g.checkpointCount)).2
      else pod.targetY := by
  simp only [advanceTarget]; split_ifs <;> rfl

theorem detectCollision_congr {p q : Pod} (o : Pod) (hx : p.posX = q.posX)
    (hy : p.posY = q.posY) (hvx : p.speedX = q.speedX)
    (hvy : p.speedY = q.speedY) :
    detectCollision p o ↔ detectCollision q o := by
  unfold detectCollision; rw [hx, hy, hvx, hvy]

theorem nextAction_fst_boostUsed (pod mo o1 o2 : Pod) (g : Game) :
    ((nextAction pod mo o1 o2 g).1).boostUsed =
      ((calculateThrust pod g).2).boostUsed := by
  simp [nextAction]

theorem nextAction_fst_currentLap (pod mo o1 o2 : Pod) (g : Game) :
    ((nextAction pod mo o1 o2 g).1).currentLap = pod.currentLap := by
  simp [nextAction]

theorem jsMod_360_self {a : ℝ} (h1 : -360 < a) (h2 : a < 360) :
    jsMod a 360 = a := by
  unfold jsMod truncToward0
  split_ifs with h
  · have hf : ⌊a / 360⌋ = 0 := by
      rw [Int.floor_eq_zero_iff]
      refine ⟨h, ?_⟩
      rw [div_lt_one (by norm_num : (0:ℝ) < 360)]
      exact h2
    rw [hf]
    push_cast
    ring
  · have hc : ⌈a / 360⌉ = 0 := by
      rw [Int.ceil_eq_zero_iff]
      constructor
      · rw [lt_div_iff₀ (by norm_num : (0:ℝ) < 360)]
        linarith
      · linarith [le_of_not_le h]
    rw [hc]
    push_cast
    ring

theorem normalizeAngle_id {a : ℝ} (h1 : -180 ≤ a) (h2 : a ≤ 180) :
    normalizeAngle a = a := by
  simp only [normalizeAngle]
  rw [jsMod_360_self (by linarith) (by linarith)]
  rw [if_neg (by linarith), if_neg (by linarith)]

theorem atan2_zero_pos {x : ℝ} (hx : 0 < x) : atan2 0 x = 0 := by
  unfold atan2
  rw [if_pos hx, zero_div, Real.arctan_zero]

theorem atan2_zero_zero : atan2 0 0 = 0 := by
  unfold atan2
  norm_num

@[simp] theorem P3.shieldOpponent_posX (pod opp : Pod) :
    (P3.shieldOpponent pod opp).posX = pod.posX := by
  unfold P3.shieldOpponent; split_ifs <;> rfl

@[simp] theorem P3.shieldOpponent_posY (pod opp : Pod) :
    (P3.shieldOpponent pod opp).posY = pod.posY := by
  unfold P3.shieldOpponent; split_ifs <;> rfl

@[simp] theorem P3.shieldOpponent_speedX (pod opp : Pod) :
    (P3.shieldOpponent pod opp).speedX = pod.speedX := by
  unfold P3.shieldOpponent; split_ifs <;> rfl

@[simp] theorem P3.shieldOpponent_speedY (pod opp : Pod) :
    (P3.shieldOpponent pod opp).speedY = pod.speedY := by
  unfold P3.shieldOpponent; split_ifs <;> rfl

@[simp] theorem P3.shieldOpponent_speed (pod opp : Pod) :
    (P3.shieldOpponent pod opp).speed = pod.speed := by
  unfold P3.shieldOpponent; split_ifs <;> rfl

@[simp] theorem P3.shieldOpponent_angle (pod opp : Pod) :
    (P3.shieldOpponent pod opp).angle = pod.angle := by
  unfold P3.shieldOpponent; split_ifs <;> rfl

@[simp] theorem P3.shieldOpponent_thrust (pod opp : Pod) :
    (P3.shieldOpponent pod opp).thrust =
      if P3.detectCollision pod opp ∧
          P3.COLLISION_ANGLE_THRESHOLD < |pod.angle - opp.angle| ∧
          P3.COLLISION_SPEED_THRESHOLD < |pod.speed - opp.speed| then
        some Thrust.shield
      else pod.thrust := by
  unfold P3.shieldOpponent; split_ifs <;> rfl

theorem P3.detectCollisionCongr {p q : Pod} (o : Pod) (hx : p.posX = q.posX)
    (hy : p.posY = q.posY) (hvx : p.speedX = q.speedX)
    (hvy : p.speedY = q.speedY) :
    P3.detectCollision p o ↔ P3.detectCollision q o := by
  unfold P3.detectCollision; rw [hx, hy, hvx, hvy]

@[simp] theorem finalThrust_some (t : Thrust) : finalThrust (some t) = t := rfl

theorem detect_stage_iff (pod opp : Pod) (g : Game) :
    detectCollision
        (stopCorrecting { (calculateThrust pod g).2 with
          thrust := some (calculateThrust pod g).1 }) opp ↔
      detectCollision pod opp :=
  detectCollision_congr opp (by simp) (by simp) (by simp) (by simp)

theorem gold_shield_of_detect1 {pod o1 : Pod} (mo o2 : Pod) (g : Game)
    (h : detectCollision pod o1) :
    ((nextAction pod mo o1 o2 g).2.2.2).thrust = Thrust.shield := by
  have hX : detectCollision
      (stopCorrecting { (calculateThrust pod g).2 with
        thrust := some (calculateThrust pod g).1 }) o1 :=
    (detect_stage_iff pod o1 g).mpr h
  simp only [nextAction, emitAction, advanceTarget_thrust, driftTarget_thrust,
    collideOpponent_fst_thrust, stopCorrecting_thrust]
  rw [if_pos hX, ite_self]
  rfl

theorem gold_shield_of_detect2 {pod o1 o2 : Pod} (mo : Pod) (g : Game)
    (h1 : ¬ detectCollision pod o1) (h2 : detectCollision pod o2) :
    ((nextAction pod mo o1 o2 g).2.2.2).thrust = Thrust.shield := by
  have hX1 : ¬ detectCollision
      (stopCorrecting { (calculateThrust pod g).2 with
        thrust := some (calculateThrust pod g).1 }) o1 :=
    fun hc => h1 ((detect_stage_iff pod o1 g).mp hc)
  have hX2 : detectCollision
      (stopCorrecting { (calculateThrust pod g).2 with
        thrust := some (calculateThrust pod g).1 }) o2 :=
    (detect_stage_iff pod o2 g).mpr h2
  simp only [nextAction, emitAction, advanceTarget_thrust, driftTarget_thrust,
    collideOpponent_fst_thrust, stopCorrecting_thrust,
    collideOpponent_of_not hX1]
  rw [if_pos hX2]
  rfl

theorem gold_thrust_of_no_detect {pod o1 o2 : Pod} (mo : Pod) (g : Game)
    (h1 : ¬ detectCollision pod o1) (h2 : ¬ detectCollision pod o2) :
    ((nextAction pod mo o1 o2 g).2.2.2).thrust = (calculateThrust pod g).1 := by
  have hX1 : ¬ detectCollision
      (stopCorrecting { (calculateThrust pod g).2 with
        thrust := some (calculateThrust pod g).1 }) o1 :=
    fun hc => h1 ((detect_stage_iff pod o1 g).mp hc)
  have hX2 : ¬ detectCollision
      (stopCorrecting { (calculateThrust pod g).2 with
        thrust := some (calculateThrust pod g).1 }) o2 :=
    fun hc => h2 ((detect_stage_iff pod o2 g).mp hc)
  simp only [nextAction, emitAction, advanceTarget_thrust, driftTarget_thrust,
    collideOpponent_fst_thrust, stopCorrecting_thrust,
    collideOpponent_of_not hX1]
  rw [if_neg hX2]
  rfl

theorem gold_thrust_cases (pod mo o1 o2 : Pod) (g : Game) :
    ((nextAction pod mo o1 o2 g).2.2.2).thrust = Thrust.shield ∨
      ((nextAction pod mo o1 o2 g).2.2.2).thrust = (calculateThrust pod g).1 := by
  simp only [nextAction, emitAction, advanceTarget_thrust, driftTarget_thrust,
    collideOpponent_fst_thrust, stopCorrecting_thrust]
  split_ifs <;> simp

theorem calculateThrust_fst_ne_shield (pod : Pod) (g : Game) :
    (calculateThrust pod g).1 ≠ Thrust.shield := by
  rcases calculateThrust_fst_cases pod g with h | ⟨n, h⟩ <;> rw [h] <;> simp

theorem distanceBetween_eval {x1 y1 x2 y2 d : ℝ} (hd : 0 ≤ d)
    (h : (x2 - x1) ^ 2 + (y2 - y1) ^ 2 = d ^ 2) :
    distanceBetween x1 y1 x2 y2 = d := by
  unfold distanceBetween
  rw [h, Real.sqrt_sq hd]

-- Concrete states shared by witnesses and counterexamples ------------------

/-- A concrete three-checkpoint course. -/
def g0 : Game where
  laps := 3
  checkpointCount := 3
  checkpoints := [((0 : ℝ), (0 : ℝ)), (5000, 0), (2500, 4000)]
  optimalBoostCheckpointId := 1

/-- The course of the drift scenario: the pod's target checkpoint 0 sits at
(1000, 0). -/
def gS : Game where
  laps := 3
  checkpointCount := 3
  checkpoints := [((1000 : ℝ), (0 : ℝ)), (5000, 0), (2500, 4000)]
  optimalBoostCheckpointId := 1

/-- An opponent pod far away from the origin region. -/
def oppFar : Pod := { initializePod with posX := 100000, posY := 100000 }

/-- Drift scenario pod: at the origin with velocity (200, 0), targeting the
checkpoint at (1000, 0), as produced by updatePod from that telemetry. -/
def podS : Pod := updatePod initializePod 1 0 0 200 0 0 0 1000 0 false

/-- Checkpoint-passing scenario pod: at the origin with velocity (300, 0),
exactly on top of its target checkpoint 0 at (0, 0). -/
def podC7 : Pod := updatePod initializePod 1 0 0 300 0 0 0 0 0 false

theorem not_detect_oppFar {pod : Pod}
    (h1 : 0 ≤ pod.posX + pod.speedX * FRICTION_FACTOR)
    (h2 : pod.posX + pod.speedX * FRICTION_FACTOR ≤ 50000)
    (h3 : 0 ≤ pod.posY + pod.speedY * FRICTION_FACTOR)
    (h4 : pod.posY + pod.speedY * FRICTION_FACTOR ≤ 50000) :
    ¬ detectCollision pod oppFar := by
  unfold detectCollision
  intro hcon
  set a := pod.posX + pod.speedX * FRICTION_FACTOR with ha
  set b := pod.posY + pod.speedY * FRICTION_FACTOR with hb
  have hfar : oppFar.posX + oppFar.speedX * FRICTION_FACTOR = 100000 ∧
      oppFar.posY + oppFar.speedY * FRICTION_FACTOR = 100000 := by
    constructor <;> simp [oppFar, initializePod, FRICTION_FACTOR]
  rw [hfar.1, hfar.2] at hcon
  have hlt : (800 : ℝ) < distanceBetween a b 100000 100000 := by
    unfold distanceBetween
    rw [Real.lt_sqrt (by norm_num)]
    nlinarith
  rw [COLLISION_RADIUS_UNITS] at hcon
  linarith

theorem runFrom_fst_currentLap (g : Game) :
    ∀ (ts : List TickInput) (pod : Pod),
      ((runFrom g pod ts).1).currentLap = pod.currentLap
  | [], _ => rfl
  | t :: ts, pod => by
    simp only [runFrom]
    rw [runFrom_fst_currentLap g ts]
    simp only [tick]
    rw [nextAction_fst_currentLap]
    rfl

theorem angleToCheckpoint_self_eq (x y d : ℝ) :
    angleToCheckpoint x y x y d = normalizeAngle (0 - d) := by
  unfold angleToCheckpoint
  rw [sub_self, sub_self, atan2_zero_zero, zero_mul, zero_div]

-- Claim theorems ------------------------------------------------------------

/-- C10: updatePod overwrites only identity, position, velocity, derived
speed, heading angle, the navigation fields and the opponent flag; the
boostUsed, shieldUsed, currentLap, isCorrecting, prevSpeedX/prevSpeedY,
targetX/targetY and thrust fields of the previous record are carried over
unchanged. -/
theorem updatePod_frame_effect (pod : Pod) (id : ℕ)
    (posX posY speedX speedY angle : ℝ) (ncpId : ℕ) (ncpX ncpY : ℝ)
    (isOpp : Bool) :
    (updatePod pod id posX posY speedX speedY angle ncpId ncpX ncpY isOpp).boostUsed
        = pod.boostUsed
  ∧ (updatePod pod id posX posY speedX speedY angle ncpId ncpX ncpY isOpp).shieldUsed
        = pod.shieldUsed
  ∧ (updatePod pod id posX posY speedX speedY angle ncpId ncpX ncpY isOpp).currentLap
        = pod.currentLap
  ∧ (updatePod pod id posX posY speedX speedY angle ncpId ncpX ncpY isOpp).isCorrecting
        = pod.isCorrecting
  ∧ (updatePod pod id posX posY speedX speedY angle ncpId ncpX ncpY isOpp).prevSpeedX
        = pod.prevSpeedX
  ∧ (updatePod pod id posX posY speedX speedY angle ncpId ncpX ncpY isOpp).prevSpeedY
        = pod.prevSpeedY
  ∧ (updatePod pod id posX posY speedX speedY angle ncpId ncpX ncpY isOpp).targetX
        = pod.targetX
  ∧ (updatePod pod id posX posY speedX speedY angle ncpId ncpX ncpY isOpp).targetY
        = pod.targetY
  ∧ (updatePod pod id posX posY speedX speedY angle ncpId ncpX ncpY isOpp).thrust
        = pod.thrust
  ∧ (updatePod pod id posX posY speedX speedY angle ncpId ncpX ncpY isOpp).id = id
  ∧ (updatePod pod id posX posY speedX speedY angle ncpId ncpX ncpY isOpp).posX = posX
  ∧ (updatePod pod id posX posY speedX speedY angle ncpId ncpX ncpY isOpp).posY = posY
  ∧ (updatePod pod id posX posY speedX speedY angle ncpId ncpX ncpY isOpp).speedX
        = speedX
  ∧ (updatePod pod id posX posY speedX speedY angle ncpId ncpX ncpY isOpp).speedY
        = speedY
  ∧ (updatePod pod id posX posY speedX speedY angle ncpId ncpX ncpY isOpp).speed
        = (jsRound (Real.sqrt (speedX * speedX + speedY * speedY)) : ℝ)
  ∧ (updatePod pod id posX posY speedX speedY angle ncpId ncpX ncpY isOpp).angle
        = angle
  ∧ (updatePod pod id posX posY speedX speedY angle ncpId ncpX ncpY isOpp).nextCheckpointId
        = ncpId
  ∧ (updatePod pod id posX posY speedX speedY angle ncpId ncpX ncpY isOpp).nextCheckpointX
        = ncpX
  ∧ (updatePod pod id posX posY speedX speedY angle ncpId ncpX ncpY isOpp).nextCheckpointY
        = ncpY
  ∧ (updatePod pod id posX posY speedX speedY angle ncpId ncpX ncpY isOpp).distanceNextCheckpoint
        = distanceBetween posX posY ncpX ncpY
  ∧ (updatePod pod id posX posY speedX speedY angle ncpId ncpX ncpY isOpp).angleNextCheckpoint
        = angleToCheckpoint posX posY ncpX ncpY angle
  ∧ (updatePod pod id posX posY speedX speedY angle ncpId ncpX ncpY isOpp).isOpponent
        = isOpp :=
  ⟨rfl, rfl, rfl, rfl, rfl, rfl, rfl, rfl, rfl, rfl, rfl, rfl, rfl, rfl, rfl,
    rfl, rfl, rfl, rfl, rfl, rfl, rfl⟩

/-- C9 (amended): the lap counter is never modified by the code: updatePod
and nextAction carry currentLap over unchanged, and over any whole match it
stays at its initial value 0. In particular it does not increase when the
target checkpoint id wraps from N-1 to 0. -/
theorem lap_counter_constant (g : Game) (ts : List TickInput) (pod : Pod)
    (id : ℕ) (posX posY speedX speedY angle : ℝ) (ncpId : ℕ) (ncpX ncpY : ℝ)
    (isOpp : Bool) (mo o1 o2 : Pod) :
    (updatePod pod id posX posY speedX speedY angle ncpId ncpX ncpY isOpp).currentLap
        = pod.currentLap
  ∧ ((nextAction pod mo o1 o2 g).1).currentLap = pod.currentLap
  ∧ ((runMatch g ts).1).currentLap = 0 :=
  ⟨rfl, nextAction_fst_currentLap pod mo o1 o2 g, by
    unfold runMatch
    rw [runFrom_fst_currentLap]
    rfl⟩

/-- C9 counterexample: with three checkpoints, a pod whose target id goes
from 2 (= N-1) to 0 across two telemetry updates still has currentLap = 0
after the wrap; the increment to 0 + 1 claimed for that tick never
happens. -/
theorem lap_counter_missing_increment :
    (updatePod initializePod 1 0 0 0 0 0 2 50 50 false).nextCheckpointId = 2
  ∧ (updatePod (updatePod initializePod 1 0 0 0 0 0 2 50 50 false)
        1 10 10 0 0 0 0 0 0 false).nextCheckpointId = 0
  ∧ (updatePod (updatePod initializePod 1 0 0 0 0 0 2 50 50 false)
        1 10 10 0 0 0 0 0 0 false).currentLap = 0
  ∧ (0 : ℕ) ≠ 0 + 1 :=
  ⟨rfl, rfl, rfl, by decide⟩

/-- C4 (amended): every bearing computed by angleToCheckpoint lies in the
closed interval [-180, 180]. The normalization can return -180 itself, so
the claim's half-open interval (-180, 180] is wrong at the left endpoint. -/
theorem bearing_in_closed_range
    (podX podY checkpointX checkpointY podDirection : ℝ) :
    -180 ≤ angleToCheckpoint podX podY checkpointX checkpointY podDirection
  ∧ angleToCheckpoint podX podY checkpointX checkpointY podDirection ≤ 180 := by
  unfold angleToCheckpoint
  exact normalizeAngle_bounds _

/-- C4 counterexample: origin (0,0), target (1000,0) distinct from the
origin, finite heading 180: the computed bearing is exactly -180, which is
not in the claimed interval (-180, 180]. -/
theorem bearing_attains_neg180 :
    angleToCheckpoint 0 0 1000 0 180 = -180
  ∧ ¬ (-180 < angleToCheckpoint 0 0 1000 0 180) := by
  have h : angleToCheckpoint 0 0 1000 0 180 = -180 := by
    unfold angleToCheckpoint
    rw [show (0:ℝ) - 0 = 0 by ring, show (1000:ℝ) - 0 = 1000 by ring]
    rw [atan2_zero_pos (by norm_num), zero_mul, zero_div]
    rw [show (0:ℝ) - 180 = -180 by ring]
    exact normalizeAngle_id (by norm_num) (by norm_num)
  exact ⟨h, by rw [h]; norm_num⟩

/-- C5 (amended): when the origin coincides with the target, the atan2 part
contributes 0 (no NaN), and the bearing equals normalizeAngle (0 - heading)
— a defined value for every heading, equal to 0 when the heading is 0 but
not in general. -/
theorem bearing_coincident_defined (x y d : ℝ) :
    angleToCheckpoint x y x y d = normalizeAngle (0 - d)
  ∧ angleToCheckpoint x y x y 0 = 0 := by
  refine ⟨angleToCheckpoint_self_eq x y d, ?_⟩
  rw [angleToCheckpoint_self_eq, show (0:ℝ) - 0 = 0 by ring]
  exact normalizeAngle_id (by norm_num) (by norm_num)

/-- C5 counterexample: origin = target = (0,0) and heading 90: the bearing
computed by the source is -90, not the claimed 0. -/
theorem bearing_coincident_nonzero :
    angleToCheckpoint 0 0 0 0 90 = -90 ∧ ((-90 : ℝ) ≠ 0) := by
  constructor
  · rw [angleToCheckpoint_self_eq, show (0:ℝ) - 90 = -90 by ring]
    exact normalizeAngle_id (by norm_num) (by norm_num)
  · norm_num

/-- C8: read in the line-of-impact frame (rotate by minus the collision
angle), the collision transform gives pod1 the along-impact component of
pod2's old velocity while keeping pod1's perpendicular component, and
symmetrically for pod2: the along-axis components are swapped and the
perpendicular components unchanged, for any two pods (equal masses are
built into the code). -/
theorem collision_swaps_impact_components (pod1 pod2 : Pod) :
    rotateVector
        (((updateVelocityAfterCollisionWithAngle pod1 pod2).1).speedX,
          ((updateVelocityAfterCollisionWithAngle pod1 pod2).1).speedY)
        (-(getCollisionAngle pod1 pod2)) =
      ((rotateVector (pod2.speedX, pod2.speedY) (-(getCollisionAngle pod1 pod2))).1,
        (rotateVector (pod1.speedX, pod1.speedY) (-(getCollisionAngle pod1 pod2))).2)
  ∧ rotateVector
        (((updateVelocityAfterCollisionWithAngle pod1 pod2).2).speedX,
          ((updateVelocityAfterCollisionWithAngle pod1 pod2).2).speedY)
        (-(getCollisionAngle pod1 pod2)) =
      ((rotateVector (pod1.speedX, pod1.speedY) (-(getCollisionAngle pod1 pod2))).1,
        (rotateVector (pod2.speedX, pod2.speedY) (-(getCollisionAngle pod1 pod2))).2) := by
  constructor <;>
  · simp only [updateVelocityAfterCollisionWithAngle, Prod.mk.eta]
    exact rotateVector_rotateVector_neg _ _

/-- The command well-formedness predicate of the spec sentence: a numeric
command lies in [0, 100]; BOOST and SHIELD are the only other commands the
Thrust type can hold. -/
def validThrust : Thrust → Prop
  | Thrust.num n => 0 ≤ n ∧ n ≤ 100
  | Thrust.boost => True
  | Thrust.shield => True

theorem validThrust_num (n : ℤ) : validThrust (Thrust.num n) ↔ 0 ≤ n ∧ n ≤ 100 :=
  Iff.rfl

theorem calculateThrust_fst_valid (pod : Pod) (g : Game)
    (h : 0 ≤ pod.distanceNextCheckpoint) :
    validThrust (calculateThrust pod g).1 := by
  have hA0 : (0:ℝ) ≤ |pod.angleNextCheckpoint| := abs_nonneg _
  have hK : (0:ℝ) < TARGET_DISTANCE_FACTOR * CHECKPOINT_RADIUS_UNITS := by
    rw [TARGET_DISTANCE_FACTOR, CHECKPOINT_RADIUS_UNITS]; norm_num
  have hv0 : 0 ≤ pod.distanceNextCheckpoint /
      (TARGET_DISTANCE_FACTOR * CHECKPOINT_RADIUS_UNITS) :=
    div_nonneg h (le_of_lt hK)
  unfold calculateThrust
  split_ifs with hb h1 h2 h3
  · trivial
  · have hu1 : |pod.angleNextCheckpoint| / 90 < 1 :=
      (div_lt_one (by norm_num)).mpr h1
    have hu0 : 0 ≤ |pod.angleNextCheckpoint| / 90 := div_nonneg hA0 (by norm_num)
    have hv1 : pod.distanceNextCheckpoint /
        (TARGET_DISTANCE_FACTOR * CHECKPOINT_RADIUS_UNITS) ≤ 1 :=
      (div_le_one hK).mpr (le_of_lt h2)
    rw [validThrust_num]
    refine jsRound_range ?_ ?_
    · nlinarith [mul_nonneg
        (show (0:ℝ) ≤ 1 - |pod.angleNextCheckpoint| / 90 by linarith) hv0]
    · nlinarith [mul_nonneg
        (show (0:ℝ) ≤ 1 - |pod.angleNextCheckpoint| / 90 by linarith) hv0,
        mul_nonneg hu0 hv0]
  · have hu1 : |pod.angleNextCheckpoint| / 90 < 1 :=
      (div_lt_one (by norm_num)).mpr h1
    have hu0 : 0 ≤ |pod.angleNextCheckpoint| / 90 := div_nonneg hA0 (by norm_num)
    rw [validThrust_num]
    refine jsRound_range (by nlinarith) (by nlinarith)
  · have hv1 : pod.distanceNextCheckpoint /
        (TARGET_DISTANCE_FACTOR * CHECKPOINT_RADIUS_UNITS) ≤ 1 :=
      (div_le_one hK).mpr (le_of_lt h3)
    rw [validThrust_num]
    refine jsRound_range (by nlinarith) (by nlinarith)
  · rw [validThrust_num]
    exact jsRound_range (by norm_num) (by norm_num)

/-- C1: the command produced by calculateThrust and the command emitted by
nextAction are always a numeric value in [0, 100] or exactly one of BOOST /
SHIELD (the Thrust type holds nothing else), under the invariant that the
pod's stored distance to its next checkpoint is nonnegative (it is a
Euclidean distance whenever the pod comes from updatePod). -/
theorem thrust_command_in_range (pod mo o1 o2 : Pod) (g : Game)
    (h : 0 ≤ pod.distanceNextCheckpoint) :
    validThrust (calculateThrust pod g).1
  ∧ validThrust ((nextAction pod mo o1 o2 g).2.2.2).thrust := by
  have hv := calculateThrust_fst_valid pod g h
  refine ⟨hv, ?_⟩
  rcases gold_thrust_cases pod mo o1 o2 g with hc | hc <;> rw [hc]
  · trivial
  · exact hv

/-- C1 witness: the range theorem applied to the initial pod on the course
g0. -/
theorem thrust_command_in_range_witness :
    0 ≤ initializePod.distanceNextCheckpoint
  ∧ validThrust (calculateThrust initializePod g0).1
  ∧ validThrust ((nextAction initializePod initializePod initializePod
        initializePod g0).2.2.2).thrust := by
  have h0 : (0:ℝ) ≤ initializePod.distanceNextCheckpoint := by
    simp [initializePod]
  obtain ⟨a, b⟩ := thrust_command_in_range initializePod initializePod
    initializePod initializePod g0 h0
  exact ⟨h0, a, b⟩

theorem nextAction_boostUsed_mono (pod mo o1 o2 : Pod) (g : Game)
    (h : pod.boostUsed = true) :
    ((nextAction pod mo o1 o2 g).1).boostUsed = true := by
  rw [nextAction_fst_boostUsed, calculateThrust_snd_boostUsed, h]
  simp

theorem nextAction_boost_flag (pod mo o1 o2 : Pod) (g : Game)
    (h : ((nextAction pod mo o1 o2 g).2.2.2).thrust = Thrust.boost) :
    pod.boostUsed = false ∧ ((nextAction pod mo o1 o2 g).1).boostUsed = true := by
  have hb : (calculateThrust pod g).1 = Thrust.boost := by
    rcases gold_thrust_cases pod mo o1 o2 g with hc | hc
    · rw [hc] at h
      exact absurd h (by simp)
    · rw [hc] at h
      exact h
  obtain ⟨h1, h2, h3⟩ := (calculateThrust_boost_iff pod g).mp hb
  refine ⟨h3, ?_⟩
  rw [nextAction_fst_boostUsed, calculateThrust_snd_boostUsed]
  simp [hb]

theorem tick_boostUsed_mono (g : Game) (pod : Pod) (t : TickInput)
    (h : pod.boostUsed = true) : ((tick g pod t).1).boostUsed = true := by
  simp only [tick]
  exact nextAction_boostUsed_mono _ _ _ _ _ h

@[simp] theorem updatePod_boostUsed_eq (pod : Pod) (id : ℕ) (px py vx vy a : ℝ)
    (ni : ℕ) (nx ny : ℝ) (io : Bool) :
    (updatePod pod id px py vx vy a ni nx ny io).boostUsed = pod.boostUsed := rfl

theorem tick_emits_boost (g : Game) (pod : Pod) (t : TickInput)
    (h : (tick g pod t).2 = Thrust.boost) :
    pod.boostUsed = false ∧ ((tick g pod t).1).boostUsed = true := by
  simp only [tick] at h ⊢
  have hres := nextAction_boost_flag _ _ _ _ _ h
  rw [updatePod_boostUsed_eq] at hres
  exact ⟨hres.1, hres.2⟩

theorem tick_no_boost (g : Game) (pod : Pod) (t : TickInput)
    (h : pod.boostUsed = true) : (tick g pod t).2 ≠ Thrust.boost := by
  intro hb
  have hf := (tick_emits_boost g pod t hb).1
  rw [h] at hf
  exact Bool.noConfusion hf

theorem runFrom_no_boost (g : Game) :
    ∀ (ts : List TickInput) (pod : Pod), pod.boostUsed = true →
      countBoost ((runFrom g pod ts).2) = 0
  | [], _, _ => rfl
  | t :: ts, pod, h => by
    have ih := runFrom_no_boost g ts (tick g pod t).1 (tick_boostUsed_mono g pod t h)
    have hne := tick_no_boost g pod t h
    simp only [runFrom, countBoost, List.count_cons] at ih ⊢
    rw [ih, beq_eq_false_iff_ne.mpr hne]
    rfl

theorem runFrom_boost_le (g : Game) :
    ∀ (ts : List TickInput) (pod : Pod),
      countBoost ((runFrom g pod ts).2) ≤ if pod.boostUsed = true then 0 else 1
  | [], pod => by
    have : countBoost ((runFrom g pod []).2) = 0 := rfl
    rw [this]
    exact Nat.zero_le _
  | t :: ts, pod => by
    by_cases hused : pod.boostUsed = true
    · rw [if_pos hused]
      exact le_of_eq (runFrom_no_boost g (t :: ts) pod hused)
    · rw [if_neg hused]
      by_cases hb : (tick g pod t).2 = Thrust.boost
      · have hflag := (tick_emits_boost g pod t hb).2
        have h0 := runFrom_no_boost g ts (tick g pod t).1 hflag
        simp only [runFrom, countBoost, List.count_cons] at h0 ⊢
        rw [h0, beq_iff_eq.mpr hb]
        simp
      · have ih := runFrom_boost_le g ts (tick g pod t).1
        have ih1 : countBoost ((runFrom g (tick g pod t).1 ts).2) ≤ 1 := by
          refine le_trans ih ?_
          split_ifs <;> norm_num
        simp only [runFrom, countBoost, List.count_cons] at ih1 ⊢
        rw [beq_eq_false_iff_ne.mpr hb]
        simpa using ih1

/-- C2: across any match starting from the all-zero initial pod state the
BOOST command is emitted at most once; the boostUsed flag never goes back
from true to false across a tick; and calculateThrust returns BOOST only
when the flag is false, setting it to true in the same call. -/
theorem boost_used_once (g : Game) (ts : List TickInput) :
    countBoost ((runMatch g ts).2) ≤ 1
  ∧ (∀ (pod : Pod) (t : TickInput), pod.boostUsed = true →
      ((tick g pod t).1).boostUsed = true)
  ∧ (∀ (pod : Pod) (g2 : Game), (calculateThrust pod g2).1 = Thrust.boost →
      pod.boostUsed = false ∧ ((calculateThrust pod g2).2).boostUsed = true) := by
  refine ⟨?_, fun pod t h => tick_boostUsed_mono g pod t h, fun pod g2 hb => ?_⟩
  · have hle := runFrom_boost_le g ts initializePod
    unfold runMatch
    simpa [initializePod] using hle
  · obtain ⟨h1, h2, h3⟩ := (calculateThrust_boost_iff pod g2).mp hb
    refine ⟨h3, ?_⟩
    rw [calculateThrust_snd_boostUsed]
    simp [hb]

/-- A pod that has already consumed its boost. -/
def podUsed : Pod := { initializePod with boostUsed := true }

/-- A pod eligible for boost on g0: heading straight at the optimal boost
checkpoint with an unused boost flag. -/
def podB : Pod := { initializePod with nextCheckpointId := 1 }

/-- An arbitrary concrete telemetry tick. -/
def t0 : TickInput where
  id := 1
  posX := 0
  posY := 0
  speedX := 0
  speedY := 0
  angle := 0
  nextCheckpointId := 0
  myOther := initializePod
  opp1 := oppFar
  opp2 := oppFar

/-- C2 witness: the theorem applied at the course g0 with a one-tick match,
a pod with the flag already set, and a boost-eligible pod. -/
theorem boost_used_once_witness :
    countBoost ((runMatch g0 [t0]).2) ≤ 1
  ∧ ((tick g0 podUsed t0).1).boostUsed = true
  ∧ (podB.boostUsed = false ∧ ((calculateThrust podB g0).2).boostUsed = true) := by
  have hb : (calculateThrust podB g0).1 = Thrust.boost :=
    (calculateThrust_boost_iff podB g0).mpr
      ⟨by simp [podB, initializePod, MAX_BOOST_ANGLE_DEGREES], rfl, rfl⟩
  exact ⟨(boost_used_once g0 [t0]).1,
    (boost_used_once g0 [t0]).2.1 podUsed t0 rfl,
    (boost_used_once g0 [t0]).2.2 podB g0 hb⟩

theorem P3.detect_stage1_iff (pod opp : Pod) (g : Game) :
    P3.detectCollision
        (stopCorrecting { (calculateThrust pod g).2 with
          thrust := some (calculateThrust pod g).1 }) opp ↔
      P3.detectCollision pod opp :=
  P3.detectCollisionCongr opp (by simp) (by simp) (by simp) (by simp)

theorem P3.detect_stage2_iff (pod o1 opp : Pod) (g : Game) :
    P3.detectCollision
        (P3.shieldOpponent
          (stopCorrecting { (calculateThrust pod g).2 with
            thrust := some (calculateThrust pod g).1 }) o1) opp ↔
      P3.detectCollision pod opp :=
  P3.detectCollisionCongr opp (by simp) (by simp) (by simp) (by simp)

theorem P3_thrust_eq (pod mo o1 o2 : Pod) (g : Game) :
    ((P3.nextAction pod mo o1 o2 g).2).thrust =
      if P3.detectCollision pod o2 ∧
          P3.COLLISION_ANGLE_THRESHOLD < |pod.angle - o2.angle| ∧
          P3.COLLISION_SPEED_THRESHOLD < |pod.speed - o2.speed| then
        Thrust.shield
      else if P3.detectCollision pod o1 ∧
          P3.COLLISION_ANGLE_THRESHOLD < |pod.angle - o1.angle| ∧
          P3.COLLISION_SPEED_THRESHOLD < |pod.speed - o1.speed| then
        Thrust.shield
      else (calculateThrust pod g).1 := by
  simp only [P3.nextAction, emitAction, advanceTarget_thrust, driftTarget_thrust,
    P3.shieldOpponent_thrust, stopCorrecting_thrust,
    P3.detect_stage1_iff, P3.detect_stage2_iff]
  simp only [P3.shieldOpponent_angle, P3.shieldOpponent_speed,
    stopCorrecting_angle, stopCorrecting_speed,
    calculateThrust_snd_angle, calculateThrust_snd_speed]
  split_ifs <;> rfl

theorem detect_initializePod_self : detectCollision initializePod initializePod := by
  unfold detectCollision
  have h0 : distanceBetween
      (initializePod.posX + initializePod.speedX * FRICTION_FACTOR)
      (initializePod.posY + initializePod.speedY * FRICTION_FACTOR)
      (initializePod.posX + initializePod.speedX * FRICTION_FACTOR)
      (initializePod.posY + initializePod.speedY * FRICTION_FACTOR) = 0 :=
    distanceBetween_eval le_rfl (by norm_num)
  rw [h0, COLLISION_RADIUS_UNITS]
  norm_num

/-- C6 (amended): in the threshold revision of nextAction, the command is
overridden to SHIELD exactly when a flagged opponent collision also has a
heading difference above 75 degrees and a speed difference above 80 units,
and when no flagged collision meets both thresholds the computed thrust is
left in place; in the gold revision, a flagged opponent collision overrides
the command to SHIELD unconditionally, with no threshold test. -/
theorem shield_policy_variants (pod mo o1 o2 : Pod) (g : Game) :
    (((P3.nextAction pod mo o1 o2 g).2).thrust = Thrust.shield ↔
      (P3.detectCollision pod o1 ∧
        P3.COLLISION_ANGLE_THRESHOLD < |pod.angle - o1.angle| ∧
        P3.COLLISION_SPEED_THRESHOLD < |pod.speed - o1.speed|) ∨
      (P3.detectCollision pod o2 ∧
        P3.COLLISION_ANGLE_THRESHOLD < |pod.angle - o2.angle| ∧
        P3.COLLISION_SPEED_THRESHOLD < |pod.speed - o2.speed|))
  ∧ (¬ (P3.detectCollision pod o1 ∧
        P3.COLLISION_ANGLE_THRESHOLD < |pod.angle - o1.angle| ∧
        P3.COLLISION_SPEED_THRESHOLD < |pod.speed - o1.speed|) →
      ¬ (P3.detectCollision pod o2 ∧
        P3.COLLISION_ANGLE_THRESHOLD < |pod.angle - o2.angle| ∧
        P3.COLLISION_SPEED_THRESHOLD < |pod.speed - o2.speed|) →
      ((P3.nextAction pod mo o1 o2 g).2).thrust = (calculateThrust pod g).1)
  ∧ (detectCollision pod o1 →
      ((nextAction pod mo o1 o2 g).2.2.2).thrust = Thrust.shield)
  ∧ (¬ detectCollision pod o1 → detectCollision pod o2 →
      ((nextAction pod mo o1 o2 g).2.2.2).thrust = Thrust.shield) := by
  have hteq := P3_thrust_eq pod mo o1 o2 g
  refine ⟨?_, ?_, fun hd => gold_shield_of_detect1 mo o2 g hd,
    fun hn hd => gold_shield_of_detect2 mo g hn hd⟩
  · rw [hteq]
    constructor
    · intro hsh
      split_ifs at hsh with hc2 hc1
      · exact Or.inr hc2
      · exact Or.inl hc1
      · exact absurd hsh (calculateThrust_fst_ne_shield pod g)
    · intro hor
      split_ifs with hc2 hc1
      · rfl
      · rfl
      · rcases hor with hc | hc
        · exact absurd hc hc1
        · exact absurd hc hc2
  · intro hn1 hn2
    rw [hteq, if_neg hn2, if_neg hn1]

/-- C6 counterexample: two pods in the same state flag a collision in the
gold revision, the heading difference (0) and the speed difference (0) are
below both thresholds, and yet the emitted command is SHIELD: the flagged
collision was not required to exceed any threshold. -/
theorem gold_shield_without_thresholds :
    detectCollision initializePod initializePod
  ∧ |initializePod.angle - initializePod.angle| ≤ 75
  ∧ |initializePod.speed - initializePod.speed| ≤ 80
  ∧ ((nextAction initializePod initializePod initializePod initializePod
        g0).2.2.2).thrust = Thrust.shield := by
  refine ⟨detect_initializePod_self, ?_, ?_,
    gold_shield_of_detect1 _ _ _ detect_initializePod_self⟩
  · rw [sub_self, abs_zero]; norm_num
  · rw [sub_self, abs_zero]; norm_num

/-- C6 witness: on concrete identical pods a flagged collision that fails
the angle and speed thresholds leaves the threshold revision's thrust at
the calculateThrust value, while the gold revision emits SHIELD. -/
theorem shield_policy_variants_witness :
    ((P3.nextAction initializePod initializePod initializePod initializePod
        g0).2).thrust = (calculateThrust initializePod g0).1
  ∧ ((nextAction initializePod initializePod initializePod initializePod
        g0).2.2.2).thrust = Thrust.shield := by
  have hang : ¬ (P3.detectCollision initializePod initializePod ∧
      P3.COLLISION_ANGLE_THRESHOLD < |initializePod.angle - initializePod.angle| ∧
      P3.COLLISION_SPEED_THRESHOLD < |initializePod.speed - initializePod.speed|) := by
    rintro ⟨-, ha, -⟩
    rw [P3.COLLISION_ANGLE_THRESHOLD, sub_self, abs_zero] at ha
    linarith
  exact ⟨(shield_policy_variants initializePod initializePod initializePod
      initializePod g0).2.1 hang hang,
    (shield_policy_variants initializePod initializePod initializePod
      initializePod g0).2.2.1 detect_initializePod_self⟩

/-- Aim-point rule as worded by the spec, x coordinate, for comparison with
the code: target checkpoint minus DRIFT_FACTOR times the velocity when the
speed is above the drift threshold, else the raw target. -/
def driftAimX (pod : Pod) : ℝ :=
  if MINIMUM_DRIFT_SPEED_UNITS < pod.speed then
    pod.nextCheckpointX - DRIFT_INTENSITY_FACTOR * pod.speedX
  else pod.nextCheckpointX

/-- Aim-point rule as worded by the spec, y coordinate. -/
def driftAimY (pod : Pod) : ℝ :=
  if MINIMUM_DRIFT_SPEED_UNITS < pod.speed then
    pod.nextCheckpointY - DRIFT_INTENSITY_FACTOR * pod.speedY
  else pod.nextCheckpointY

theorem nextAction_targets_no_collision (pod mo o1 o2 : Pod) (g : Game)
    (h1 : ¬ detectCollision pod o1) (h2 : ¬ detectCollision pod o2) :
    ((nextAction pod mo o1 o2 g).2.2.2).targetX =
      jsRound (if pod.distanceNextCheckpoint <
          distanceBetween (driftAimX pod) (driftAimY pod)
            pod.nextCheckpointX pod.nextCheckpointY then
        (getCheckpoint g.checkpoints
          ((pod.nextCheckpointId + 1) % g.checkpointCount)).1
      else driftAimX pod)
  ∧ ((nextAction pod mo o1 o2 g).2.2.2).targetY =
      jsRound (if pod.distanceNextCheckpoint <
          distanceBetween (driftAimX pod) (driftAimY pod)
            pod.nextCheckpointX pod.nextCheckpointY then
        (getCheckpoint g.checkpoints
          ((pod.nextCheckpointId + 1) % g.checkpointCount)).2
      else driftAimY pod) := by
  have hX1 : ¬ detectCollision
      (stopCorrecting { (calculateThrust pod g).2 with
        thrust := some (calculateThrust pod g).1 }) o1 :=
    fun hc => h1 ((detect_stage_iff pod o1 g).mp hc)
  have hX2 : ¬ detectCollision
      (stopCorrecting { (calculateThrust pod g).2 with
        thrust := some (calculateThrust pod g).1 }) o2 :=
    fun hc => h2 ((detect_stage_iff pod o2 g).mp hc)
  simp only [nextAction, emitAction, collideOpponent_of_not hX1]
  simp only [collideOpponent_of_not hX2]
  simp only [advanceTarget_targetX, advanceTarget_targetY, driftTarget_targetX,
    driftTarget_targetY, driftTarget_speed, driftTarget_distanceNextCheckpoint,
    driftTarget_nextCheckpointId, driftTarget_nextCheckpointX,
    driftTarget_nextCheckpointY, stopCorrecting_speed, stopCorrecting_speedX,
    stopCorrecting_speedY, stopCorrecting_distanceNextCheckpoint,
    stopCorrecting_nextCheckpointId, stopCorrecting_nextCheckpointX,
    stopCorrecting_nextCheckpointY, calculateThrust_snd_speed,
    calculateThrust_snd_speedX, calculateThrust_snd_speedY,
    calculateThrust_snd_distanceNextCheckpoint,
    calculateThrust_snd_nextCheckpointId, calculateThrust_snd_nextCheckpointX,
    calculateThrust_snd_nextCheckpointY, driftAimX, driftAimY]
  exact ⟨trivial, trivial⟩

/-- C7 (amended): when no opponent collision is flagged (a flagged one
first rewrites the velocities through the elastic-collision logging call
and shields), the aim point is the target checkpoint position minus
DRIFT_INTENSITY_FACTOR (4) times the velocity when speed > 100 and the raw
checkpoint position otherwise; and when the pod's distance to its target
checkpoint is strictly less than the aim point's distance to it, the
emitted target is the raw position of checkpoint (nextCheckpointId + 1)
mod checkpointCount — the aim point is not recomputed with drift against
the new target. The scenario pod at (0,0), velocity (200,0), checkpoint
(1000,0) gets aim point (200,0). -/
theorem aim_point_rule (pod mo o1 o2 : Pod) (g : Game)
    (h1 : ¬ detectCollision pod o1) (h2 : ¬ detectCollision pod o2) :
    ((nextAction pod mo o1 o2 g).2.2.2).targetX =
      jsRound (if pod.distanceNextCheckpoint <
          distanceBetween (driftAimX pod) (driftAimY pod)
            pod.nextCheckpointX pod.nextCheckpointY then
        (getCheckpoint g.checkpoints
          ((pod.nextCheckpointId + 1) % g.checkpointCount)).1
      else driftAimX pod)
  ∧ ((nextAction pod mo o1 o2 g).2.2.2).targetY =
      jsRound (if pod.distanceNextCheckpoint <
          distanceBetween (driftAimX pod) (driftAimY pod)
            pod.nextCheckpointX pod.nextCheckpointY then
        (getCheckpoint g.checkpoints
          ((pod.nextCheckpointId + 1) % g.checkpointCount)).2
      else driftAimY pod) :=
  nextAction_targets_no_collision pod mo o1 o2 g h1 h2

theorem podS_fields :
    podS.posX = 0 ∧ podS.posY = 0 ∧ podS.speedX = 200 ∧ podS.speedY = 0
  ∧ podS.speed = 200 ∧ podS.nextCheckpointX = 1000 ∧ podS.nextCheckpointY = 0
  ∧ podS.nextCheckpointId = 0 ∧ podS.distanceNextCheckpoint = 1000 := by
  refine ⟨rfl, rfl, rfl, rfl, ?_, rfl, rfl, rfl, ?_⟩
  · show (jsRound (Real.sqrt (200 * 200 + 0 * 0)) : ℝ) = 200
    rw [show (200 * 200 + 0 * 0 : ℝ) = 200 ^ 2 by norm_num,
      Real.sqrt_sq (by norm_num)]
    norm_num [jsRound]
  · show distanceBetween 0 0 1000 0 = 1000
    exact distanceBetween_eval (by norm_num) (by norm_num)

/-- C7 witness: the drift scenario. The pod at (0,0) with velocity (200,0)
targeting the checkpoint at (1000,0) emits the aim point (200, 0). -/
theorem aim_point_rule_witness :
    ((nextAction podS initializePod oppFar oppFar gS).2.2.2).targetX = 200
  ∧ ((nextAction podS initializePod oppFar oppFar gS).2.2.2).targetY = 0 := by
  obtain ⟨hx, hy, hvx, hvy, hs, hnx, hny, hni, hd⟩ := podS_fields
  have h1 : ¬ detectCollision podS oppFar :=
    not_detect_oppFar (by rw [hx, hvx, FRICTION_FACTOR]; norm_num)
      (by rw [hx, hvx, FRICTION_FACTOR]; norm_num)
      (by rw [hy, hvy, FRICTION_FACTOR]; norm_num)
      (by rw [hy, hvy, FRICTION_FACTOR]; norm_num)
  obtain ⟨htx, hty⟩ := aim_point_rule podS initializePod oppFar oppFar gS h1 h1
  rw [htx, hty]
  have haimx : driftAimX podS = 200 := by
    unfold driftAimX
    rw [hs, hnx, hvx, MINIMUM_DRIFT_SPEED_UNITS, DRIFT_INTENSITY_FACTOR]
    norm_num
  have haimy : driftAimY podS = 0 := by
    unfold driftAimY
    rw [hs, hny, hvy, MINIMUM_DRIFT_SPEED_UNITS, DRIFT_INTENSITY_FACTOR]
    norm_num
  rw [haimx, haimy, hd, hnx, hny]
  have hdist : distanceBetween 200 0 1000 0 = 800 :=
    distanceBetween_eval (by norm_num) (by norm_num)
  rw [hdist, if_neg (by norm_num), if_neg (by norm_num)]
  constructor <;> norm_num [jsRound]

theorem podC7_fields :
    podC7.posX = 0 ∧ podC7.posY = 0 ∧ podC7.speedX = 300 ∧ podC7.speedY = 0
  ∧ podC7.speed = 300 ∧ podC7.nextCheckpointX = 0 ∧ podC7.nextCheckpointY = 0
  ∧ podC7.nextCheckpointId = 0 ∧ podC7.distanceNextCheckpoint = 0 := by
  refine ⟨rfl, rfl, rfl, rfl, ?_, rfl, rfl, rfl, ?_⟩
  · show (jsRound (Real.sqrt (300 * 300 + 0 * 0)) : ℝ) = 300
    rw [show (300 * 300 + 0 * 0 : ℝ) = 300 ^ 2 by norm_num,
      Real.sqrt_sq (by norm_num)]
    norm_num [jsRound]
  · show distanceBetween 0 0 0 0 = 0
    exact distanceBetween_eval le_rfl (by norm_num)

/-- C7 counterexample: the pod sits exactly on its target checkpoint 0 at
(0,0) with velocity (300,0), so the checkpoint-passing test fires; the code
emits the raw position 5000 of checkpoint 1, while recomputing the drift
aim point against that new target would give 5000 - 4 x 300 = 3800: the aim
point is not recomputed as the claim states. -/
theorem aim_point_advance_counterexample :
    ((nextAction podC7 initializePod oppFar oppFar g0).2.2.2).targetX = 5000
  ∧ driftAimX { podC7 with nextCheckpointX := 5000, nextCheckpointY := 0 } = 3800
  ∧ ((5000 : ℤ) ≠ 3800) := by
  obtain ⟨hx, hy, hvx, hvy, hs, hnx, hny, hni, hd⟩ := podC7_fields
  refine ⟨?_, ?_, by decide⟩
  · have h1 : ¬ detectCollision podC7 oppFar :=
      not_detect_oppFar (by rw [hx, hvx, FRICTION_FACTOR]; norm_num)
        (by rw [hx, hvx, FRICTION_FACTOR]; norm_num)
        (by rw [hy, hvy, FRICTION_FACTOR]; norm_num)
        (by rw [hy, hvy, FRICTION_FACTOR]; norm_num)
    obtain ⟨htx, -⟩ := nextAction_targets_no_collision podC7 initializePod
      oppFar oppFar g0 h1 h1
    rw [htx]
    have haimx : driftAimX podC7 = -1200 := by
      unfold driftAimX
      rw [hs, hnx, hvx, MINIMUM_DRIFT_SPEED_UNITS, DRIFT_INTENSITY_FACTOR]
      norm_num
    have haimy : driftAimY podC7 = 0 := by
      unfold driftAimY
      rw [hs, hny, hvy, MINIMUM_DRIFT_SPEED_UNITS, DRIFT_INTENSITY_FACTOR]
      norm_num
    rw [haimx, haimy, hd, hnx, hny, hni]
    have hdist : distanceBetween (-1200) 0 0 0 = 1200 :=
      distanceBetween_eval (by norm_num) (by norm_num)
    rw [hdist, if_pos (by norm_num)]
    norm_num [g0, getCheckpoint, jsRound]
  · show (if MINIMUM_DRIFT_SPEED_UNITS < podC7.speed then
        (5000 : ℝ) - DRIFT_INTENSITY_FACTOR * podC7.speedX else 5000) = 3800
    rw [hs, hvx, MINIMUM_DRIFT_SPEED_UNITS, DRIFT_INTENSITY_FACTOR]
    norm_num

/-- The optimal-boost rule as worded by the spec, for comparison with
findOptimalBoostCheckpoint: arg-max (first index of the maximum) over the
edge lengths between consecutive checkpoints, plus one, mod N. -/
def specOptimalBoostCheckpoint (checkpoints : List (ℝ × ℝ))
    (checkpointCount : ℕ) : ℕ :=
  let edgeLengths := (List.range checkpointCount).map fun i =>
    distanceBetween (getCheckpoint checkpoints i).1 (getCheckpoint checkpoints i).2
      (getCheckpoint checkpoints ((i + 1) % checkpointCount)).1
      (getCheckpoint checkpoints ((i + 1) % checkpointCount)).2
  (edgeLengths.indexOf (edgeLengths.foldr max 0) + 1) % checkpointCount

/-- The course of the C3 scenario. -/
def course3 : List (ℝ × ℝ) := [(0, 0), (10000, 0), (10000, 5000)]

theorem sqrt125000000_gt : (10000 : ℝ) < Real.sqrt 125000000 := by
  rw [Real.lt_sqrt (by norm_num)]
  norm_num

theorem course3_eval : findOptimalBoostCheckpoint course3 3 = 0 := by
  have e0 : distanceBetween (0 : ℝ) 0 10000 0 = 10000 :=
    distanceBetween_eval (by norm_num) (by norm_num)
  have e1 : distanceBetween (10000 : ℝ) 0 10000 5000 = 5000 :=
    distanceBetween_eval (by norm_num) (by norm_num)
  have e2 : distanceBetween (10000 : ℝ) 5000 0 0 = Real.sqrt 125000000 := by
    unfold distanceBetween
    norm_num
  have hs125 : (0 : ℝ) ≤ Real.sqrt 125000000 := Real.sqrt_nonneg _
  have h10 := sqrt125000000_gt
  have h5 : (5000 : ℝ) < Real.sqrt 125000000 := by linarith
  simp only [findOptimalBoostCheckpoint]
  have hlist : (List.range 3).map (fun i =>
      distanceBetween (getCheckpoint course3 i).1 (getCheckpoint course3 i).2
        (getCheckpoint course3 ((i + 1) % 3)).1
        (getCheckpoint course3 ((i + 1) % 3)).2) =
      [distanceBetween 0 0 10000 0, distanceBetween 10000 0 10000 5000,
        distanceBetween 10000 5000 0 0] := rfl
  rw [hlist, e0, e1, e2]
  rw [show List.foldr max 0 [(10000 : ℝ), 5000, Real.sqrt 125000000] =
      Real.sqrt 125000000 by
    simp only [List.foldr]
    rw [max_eq_left hs125, max_eq_right (le_of_lt h5), max_eq_right (le_of_lt h10)]]
  rw [show List.indexOf (Real.sqrt 125000000)
      [(10000 : ℝ), 5000, Real.sqrt 125000000] = 2 by
    rw [List.indexOf_cons, List.indexOf_cons, List.indexOf_cons]
    rw [beq_eq_false_iff_ne.mpr (ne_of_lt h10),
      beq_eq_false_iff_ne.mpr (ne_of_lt h5), beq_self_eq_true]
    rfl]

/-- C3 (amended): the optimal boost checkpoint id is the arg-max index over
consecutive edge lengths plus one mod N (findOptimalBoostCheckpoint agrees
with the spec's arg-max rule on every course); but on the 3-checkpoint
course (0,0), (10000,0), (10000,5000) the single longest edge is the
closing edge from checkpoint 2 back to checkpoint 0 (length sqrt 125000000,
which exceeds 10000), so the computed id is (2 + 1) mod 3 = 0, not 1. -/
theorem optimal_boost_checkpoint_course3 :
    (∀ (checkpoints : List (ℝ × ℝ)) (checkpointCount : ℕ),
      findOptimalBoostCheckpoint checkpoints checkpointCount =
        specOptimalBoostCheckpoint checkpoints checkpointCount)
  ∧ findOptimalBoostCheckpoint course3 3 = 0
  ∧ distanceBetween 0 0 10000 0 < distanceBetween 10000 5000 0 0 := by
  refine ⟨fun checkpoints checkpointCount => rfl, course3_eval, ?_⟩
  have e0 : distanceBetween (0 : ℝ) 0 10000 0 = 10000 :=
    distanceBetween_eval (by norm_num) (by norm_num)
  have e2 : distanceBetween (10000 : ℝ) 5000 0 0 = Real.sqrt 125000000 := by
    unfold distanceBetween
    norm_num
  rw [e0, e2]
  exact sqrt125000000_gt

/-- C3 counterexample: on the claimed course with 3 checkpoints at (0,0),
(10000,0), (10000,5000), the computed optimal boost checkpoint id is 0, not
the claimed 1. -/
theorem optimal_boost_checkpoint_course3_ne_one :
    findOptimalBoostCheckpoint course3 3 ≠ 1 := by
  rw [course3_eval]
  decide

end

end MadPod
